import Mathlib

/-!
Verification of the Identity & Session Lifecycle subsystem of the
`projeto-atimus` tender-notice API.

The definitions below are a shallow embedding of the Python source:

* `API/models.py`  — the `Cliente` row (client identity store);
* `API/auth.py`    — password hashing (bcrypt, truncated to 72 chars),
  peppered reset-token digests, and the secure reset-token generator
  `secrets.token_urlsafe(32)`;
* `API/main.py`    — the endpoint handlers `cliente_me`, `cadastro_cliente`,
  `login_cliente`, `verificar_email`, `esqueci_senha`, `redefinir_senha`.

Modelling conventions:

* timestamps are integers (UTC seconds); `timedelta(days = n)` is `n * 86400`,
  `timedelta.days` is `Int` division by 86400 (Lean's `/` on `Int` is
  Euclidean division, which agrees with Python's floor division for the
  positive divisor 86400);
* the database is a `List Cliente`; `query(...).filter(p).first()` is
  `List.find? p`; a mutation of the found row followed by `commit()` is
  `updateFirst p f`;
* bcrypt and SHA-256 are cryptographic primitives external to this code; they
  are carried in a `Crypto` record of function parameters, so that theorems can
  assume exactly the primitive facts they need (for example that verifying a
  password against its own hash succeeds);
* `os.urandom` / random inputs are passed explicitly as byte lists, so that the
  token-minting functions `token_urlsafe32` (from `secrets.token_urlsafe(32)`)
  and `uuid4_str` (from `str(uuid.uuid4())`) are deterministic functions of
  their random bytes;
* each handler returns the pair of its HTTP response and the new database
  state; the response record `Resp` carries the HTTP status and the JSON
  fields that the handlers of `main.py` may emit.
-/

/-- Cryptographic primitives used by `API/auth.py`, passed as parameters:
`bcryptHash`/`bcryptVerify` stand for `passlib`'s bcrypt context (the random
salt makes `bcryptHash` a parameter rather than a fixed function), `sha256hex`
for `hashlib.sha256(...).hexdigest()`, and `pepper` for the
`RESET_TOKEN_PEPPER` environment value. -/
structure Crypto where
  bcryptHash : String → String
  bcryptVerify : String → String → Bool
  sha256hex : String → String
  pepper : String

/-- Embedding of `auth.hash_senha`: truncate to 72 characters, then bcrypt. -/
def hash_senha (cr : Crypto) (senha : String) : String :=
  cr.bcryptHash (senha.take 72)

/-- Embedding of `auth.verificar_senha`: truncate to 72 characters, then
verify against the stored bcrypt digest. -/
def verificar_senha (cr : Crypto) (senha : String) (senha_hash : String) : Bool :=
  cr.bcryptVerify (senha.take 72) senha_hash

/-- Embedding of `auth.hash_token`: SHA-256 hex digest of token ++ pepper. -/
def hash_token (cr : Crypto) (token : String) : String :=
  cr.sha256hex (token ++ cr.pepper)

/-- The 64-character URL-safe base64 alphabet used by
`base64.urlsafe_b64encode`: the 26 uppercase letters, the 26 lowercase
letters, the 10 digits, then `-` and `_`. -/
def b64urlChars : List Char :=
  ((List.range 26).map fun n => Char.ofNat (65 + n)) ++
    ((List.range 26).map fun n => Char.ofNat (97 + n)) ++
    ((List.range 10).map fun n => Char.ofNat (48 + n)) ++ ['-', '_']

/-- Character of the URL-safe base64 alphabet at a 6-bit index. -/
def b64urlChar (n : Nat) : Char :=
  b64urlChars.getD n '?'

/-- Big-endian value of a byte list, as in the bit string that
`base64.urlsafe_b64encode` reads from its input, most significant byte
first. -/
def beNum : List Nat → Nat
  | [] => 0
  | d :: ds => d * 256 ^ ds.length + beNum ds

/-- Embedding of `secrets.token_urlsafe(32)` as a function of its 32 random
bytes: url-safe base64 of the 256-bit big-endian value, with the trailing
`=` padding stripped, giving 43 characters.  The two zero bits that base64
pads onto the tail of the 256-bit input amount to multiplying by 4 and
reading 43 six-bit digits most significant first. -/
def token_urlsafe32 (bytes : List Nat) : String :=
  String.mk ((List.range 43).map fun i =>
    b64urlChar (beNum bytes * 4 / 64 ^ (42 - i) % 64))

/-- Embedding of `auth.gerar_reset_token`, which is
`secrets.token_urlsafe(32)` applied to 32 fresh random bytes. -/
def gerar_reset_token (bytes : List Nat) : String :=
  token_urlsafe32 bytes

/-- The 16 lowercase hex characters used by `uuid.UUID.__str__`: the 10
digits followed by the 6 letters from `a`. -/
def hexChars : List Char :=
  ((List.range 10).map fun n => Char.ofNat (48 + n)) ++
    ((List.range 6).map fun n => Char.ofNat (97 + n))

/-- Hex character at a 4-bit index. -/
def hexChar (n : Nat) : Char :=
  hexChars.getD n '?'

/-- Two lowercase hex characters of one byte, high nibble first. -/
def byteToHex (b : Nat) : List Char :=
  [hexChar (b / 16 % 16), hexChar (b % 16)]

/-- Version and variant forcing of `uuid.uuid4()`: byte 6 gets high nibble 4
(version), byte 8 gets its top two bits set to `10` (RFC 4122 variant). -/
def uuid4_setVariant (bytes : List Nat) : List Nat :=
  bytes.enum.map fun p =>
    if p.1 = 6 then 64 + p.2 % 16 else if p.1 = 8 then 128 + p.2 % 64 else p.2

/-- Embedding of `str(uuid.uuid4())` as a function of its 16 random bytes:
32 lowercase hex characters in 8-4-4-4-12 groups separated by `-`, after the
version/variant bits are forced. -/
def uuid4_str (bytes : List Nat) : String :=
  let hx := ((uuid4_setVariant bytes).map byteToHex).flatten
  String.mk (hx.take 8 ++ '-' :: (hx.drop 8).take 4 ++ '-' :: (hx.drop 12).take 4
    ++ '-' :: (hx.drop 16).take 4 ++ '-' :: hx.drop 20)

/-- The `uuid4` string generator on its exact random-seed domain, 16 bytes,
used to count how many distinct session / email-verification tokens the
system can possibly mint. -/
def uuid4_of (b : Fin 16 → Fin 256) : String :=
  uuid4_str (List.ofFn fun i => (b i).val)

/-- Predicate for URL-safe characters: unreserved alphanumerics plus the two
extra characters of the base64url alphabet. -/
def urlSafeChar (c : Char) : Bool :=
  c.isAlphanum || c == '-' || c == '_'

/-- Embedding of the `clientes` table row from `API/models.py` (class
`Cliente`): nullable columns are `Option`, `DateTime` columns are integer
timestamps. -/
structure Cliente where
  id : Nat
  nome : String
  email : String
  celular : String
  cnpj : String
  senha_hash : String
  email_verificado : Bool
  email_token : Option String
  email_token_expiration : Option Int
  reset_token_hash : Option String
  reset_token_expiration : Option Int
  contato_ok : Bool
  politica_ok : Bool
  token : Option String
  token_expiration : Option Int
  criado_em : Int
deriving DecidableEq

/-- HTTP response record: status plus the JSON fields any of the client-auth
handlers of `API/main.py` may emit (absent fields are `none`). -/
structure Resp where
  status : Nat
  logado : Option Bool
  msg : Option String
  detail : Option String
  nome : Option String
  id : Option Nat
  redirect : Option String
  sucesso : Option Bool
  cookie : Option String
deriving DecidableEq

/-- Response with status 200 and no fields; handlers override fields. -/
def Resp.base : Resp :=
  { status := 200, logado := none, msg := none, detail := none, nome := none,
    id := none, redirect := none, sucesso := none, cookie := none }

/-- Default of the `FRONTEND_APP_URL` configuration value. -/
def FRONTEND_APP_URL : String :=
  "http://127.0.0.1:5500/editais.html"

/-- Default of the `FRONTEND_LOGIN_URL` configuration value. -/
def FRONTEND_LOGIN_URL : String :=
  "http://127.0.0.1:5500/index.html"

/-- Body `{"logado": False}` of the not-logged-in paths of `cliente_me`. -/
def respNaoLogado : Resp :=
  { Resp.base with logado := some false }

/-- Message of the expired-session path of `cliente_me`. -/
def msgSessaoExpirada : String :=
  "Sessão expirada"

/-- Body `{"logado": False, "msg": "Sessão expirada"}` of `cliente_me`. -/
def respSessaoExpirada : Resp :=
  { Resp.base with logado := some false, msg := some msgSessaoExpirada }

/-- Successful body of `cliente_me` with the profile fields. -/
def respMe (c : Cliente) : Resp :=
  { Resp.base with logado := some true, nome := some c.nome, id := some c.id,
                   redirect := some FRONTEND_APP_URL }

/-- Detail of the 401 response of `login_cliente`. -/
def msgLoginInvalido : String :=
  "E-mail ou senha incorretos."

/-- The 401 response of `login_cliente`. -/
def respLoginInvalido : Resp :=
  { Resp.base with status := 401, detail := some msgLoginInvalido }

/-- Detail of the 403 response of `login_cliente`. -/
def msgNaoVerificado : String :=
  "Seu e-mail ainda não foi verificado. Verifique sua caixa de entrada."

/-- The 403 response of `login_cliente`. -/
def respNaoVerificado : Resp :=
  { Resp.base with status := 403, detail := some msgNaoVerificado }

/-- Successful response of `login_cliente`: redirect body plus the
`cliente_token` session cookie. -/
def respLoginOk (tok : String) : Resp :=
  { Resp.base with redirect := some FRONTEND_APP_URL, sucesso := some true,
                   cookie := some tok }

/-- Detail of the 400 conflict response of `cadastro_cliente`. -/
def msgConflito : String :=
  "E-mail ou CNPJ já cadastrados. Tente fazer login."

/-- The 400 conflict response of `cadastro_cliente`. -/
def respConflito : Resp :=
  { Resp.base with status := 400, detail := some msgConflito }

/-- Successful body of `cadastro_cliente`. -/
def respCadastroOk : Resp :=
  { Resp.base with sucesso := some true,
                   msg := some "Cadastro realizado! Verifique seu e-mail para ativar a conta." }

/-- The 400 response of `verificar_email` for an unknown token. -/
def respTokenInvalido : Resp :=
  { Resp.base with status := 400, detail := some "Token inválido ou não encontrado." }

/-- The 400 response of `verificar_email` for an expired token. -/
def respLinkExpirou : Resp :=
  { Resp.base with status := 400, detail := some "Este link de verificação expirou." }

/-- The redirect response of `verificar_email` (FastAPI `RedirectResponse`
defaults to status 307). -/
def respVerificado : Resp :=
  { Resp.base with status := 307, redirect := some (FRONTEND_LOGIN_URL ++ "?verificado=true") }

/-- Generic acknowledgment of `esqueci_senha`, identical on every path. -/
def msgPadrao : String :=
  "Se este e-mail estiver cadastrado, você receberá um link de recuperação."

/-- The single response `esqueci_senha` ever returns. -/
def respMsgPadrao : Resp :=
  { Resp.base with msg := some msgPadrao }

/-- The 400 response of `redefinir_senha` for a bad password length. -/
def respSenhaTamanho : Resp :=
  { Resp.base with status := 400, detail := some "A senha deve ter entre 6 e 64 caracteres." }

/-- The generic 400 response of `redefinir_senha` for an invalid or expired
reset token. -/
def respLinkInvalido : Resp :=
  { Resp.base with status := 400, detail := some "Link inválido ou expirado. Solicite um novo." }

/-- Successful body of `redefinir_senha`. -/
def respSenhaRedefinida : Resp :=
  { Resp.base with msg := some "Senha redefinida com sucesso. Faça login agora." }

/-- SQLAlchemy read-modify-write on the row returned by `.first()`: apply `f`
to the first element satisfying `p`, leave everything else alone. -/
def updateFirst (p : Cliente → Bool) (f : Cliente → Cliente) : List Cliente → List Cliente
  | [] => []
  | c :: cs => if p c then f c :: cs else c :: updateFirst p f cs

/-- Embedding of the handler `GET /cliente/me` (`cliente_me` in
`API/main.py`): session check with rolling renewal.  The cookie guard `if
not cliente_token` treats both a missing and an empty cookie as absent; the
expiry test is `now > token_expiration`; renewal fires when
`(token_expiration - now).days < 5` and rewrites the expiry to now + 30
days.  Every path answers with HTTP status 200. -/
def cliente_me (db : List Cliente) (cliente_token : Option String) (now : Int) :
    Resp × List Cliente :=
  match cliente_token with
  | none => (respNaoLogado, db)
  | some t =>
    if t = "" then (respNaoLogado, db)
    else
      match db.find? (fun c => c.token == some t) with
      | none => (respNaoLogado, db)
      | some cliente =>
        if !cliente.email_verificado then (respNaoLogado, db)
        else
          match cliente.token_expiration with
          | none => (respMe cliente, db)
          | some exp =>
            if now > exp then (respSessaoExpirada, db)
            else if (exp - now) / 86400 < 5 then
              (respMe cliente,
               updateFirst (fun c => c.token == some t)
                 (fun c => { c with token_expiration := some (now + 30 * 86400) }) db)
            else (respMe cliente, db)

/-- Request body of `POST /cliente/cadastro` (`CadastroCliente` in
`API/main.py`); pydantic bounds `senha` to 6..64 characters before the
handler runs. -/
structure CadastroCliente where
  nome : String
  email : String
  senha : String
  celular : String
  cnpj : String
  contato_ok : Bool
  politica_ok : Bool

/-- Embedding of the handler `POST /cliente/cadastro` (`cadastro_cliente`):
single combined duplicate lookup on email or cnpj, then a new unverified row
whose email-verification token is `str(uuid.uuid4())` with a 72-hour expiry.
The email send is a side effect outside the store and does not affect the
result. -/
def cadastro_cliente (cr : Crypto) (db : List Cliente) (dados : CadastroCliente)
    (now : Int) (rb : List Nat) (newId : Nat) : Resp × List Cliente :=
  match db.find? (fun c => c.email == dados.email || c.cnpj == dados.cnpj) with
  | some _ => (respConflito, db)
  | none =>
    let verificacao_token := uuid4_str rb
    let novo : Cliente :=
      { id := newId, nome := dados.nome, email := dados.email,
        celular := dados.celular, cnpj := dados.cnpj,
        senha_hash := hash_senha cr dados.senha,
        email_verificado := false,
        email_token := some verificacao_token,
        email_token_expiration := some (now + 72 * 3600),
        reset_token_hash := none, reset_token_expiration := none,
        contato_ok := dados.contato_ok, politica_ok := dados.politica_ok,
        token := none, token_expiration := none, criado_em := now }
    (respCadastroOk, db ++ [novo])

/-- Request body of `POST /cliente/login`. -/
structure LoginCliente where
  email : String
  senha : String

/-- Embedding of the handler `POST /cliente/login` (`login_cliente`):
lookup by email, 401 on missing account or wrong password, 403 on unverified
email; on success mint `str(uuid.uuid4())` as the session token, set its
expiry to now + 30 days, and clear a pending reset digest (Python truthiness:
only when the stored digest is a non-empty string). -/
def login_cliente (cr : Crypto) (db : List Cliente) (dados : LoginCliente)
    (now : Int) (rb : List Nat) : Resp × List Cliente :=
  match db.find? (fun c => c.email == dados.email) with
  | none => (respLoginInvalido, db)
  | some cliente =>
    if !verificar_senha cr dados.senha cliente.senha_hash then (respLoginInvalido, db)
    else if !cliente.email_verificado then (respNaoVerificado, db)
    else
      let sessao_token := uuid4_str rb
      let upd : Cliente → Cliente := fun c0 =>
        let c1 := { c0 with token := some sessao_token,
                            token_expiration := some (now + 30 * 86400) }
        match c1.reset_token_hash with
        | none => c1
        | some s =>
          if s = "" then c1
          else { c1 with reset_token_hash := none, reset_token_expiration := none }
      (respLoginOk sessao_token,
       updateFirst (fun c => c.email == dados.email) upd db)

/-- Embedding of the handler `GET /cliente/verificar-email`
(`verificar_email`): lookup by verification token only; idempotent redirect
when already verified; 400 when the token expired; otherwise flip
`email_verificado` and null the token and its expiry, then redirect. -/
def verificar_email (db : List Cliente) (token : String) (now : Int) :
    Resp × List Cliente :=
  match db.find? (fun c => c.email_token == some token) with
  | none => (respTokenInvalido, db)
  | some cliente =>
    if cliente.email_verificado then (respVerificado, db)
    else
      let ok :=
        (respVerificado,
         updateFirst (fun c => c.email_token == some token)
           (fun c => { c with email_verificado := true, email_token := none,
                              email_token_expiration := none }) db)
      match cliente.email_token_expiration with
      | none => ok
      | some e => if now > e then (respLinkExpirou, db) else ok

/-- Embedding of the handler `POST /cliente/esqueci-senha` (`esqueci_senha`):
always answer the same generic message; internally, if the account exists and
still holds an unexpired reset token, do nothing (anti-flood); otherwise mint
`secrets.token_urlsafe(32)`, store its peppered digest with a 30-minute
expiry.  The raw token leaves only through the email side effect. -/
def esqueci_senha (cr : Crypto) (db : List Cliente) (email : String) (now : Int)
    (rb : List Nat) : Resp × List Cliente :=
  match db.find? (fun c => c.email == email) with
  | none => (respMsgPadrao, db)
  | some cliente =>
    let raw_token := gerar_reset_token rb
    let hashed_token := hash_token cr raw_token
    let mint :=
      (respMsgPadrao,
       updateFirst (fun c => c.email == email)
         (fun c => { c with reset_token_hash := some hashed_token,
                            reset_token_expiration := some (now + 30 * 60) }) db)
    match cliente.reset_token_expiration with
    | none => mint
    | some e => if now < e then (respMsgPadrao, db) else mint

/-- Request body of `POST /cliente/redefinir-senha`. -/
structure RedefinirSenhaRequest where
  token : String
  nova_senha : String

/-- The combined SQL filter of `redefinir_senha`: digest match and expiry
still in the future, evaluated atomically in the lookup (`NULL` columns match
neither conjunct). -/
def resetPred (cr : Crypto) (tok : String) (now : Int) (c : Cliente) : Bool :=
  c.reset_token_hash == some (hash_token cr tok) &&
    match c.reset_token_expiration with
    | none => false
    | some e => decide (e > now)

/-- Embedding of the handler `POST /cliente/redefinir-senha`
(`redefinir_senha`): length bounds first, then one combined lookup by digest
and unexpired expiry; on success set the new password hash, null the session
token and its expiry, and null the reset digest and its expiry. -/
def redefinir_senha (cr : Crypto) (db : List Cliente) (req : RedefinirSenhaRequest)
    (now : Int) : Resp × List Cliente :=
  if req.nova_senha.length < 6 || req.nova_senha.length > 64 then
    (respSenhaTamanho, db)
  else
    match db.find? (resetPred cr req.token now) with
    | none => (respLinkInvalido, db)
    | some _ =>
      (respSenhaRedefinida,
       updateFirst (resetPred cr req.token now)
         (fun c => { c with senha_hash := hash_senha cr req.nova_senha,
                            token := none, token_expiration := none,
                            reset_token_hash := none,
                            reset_token_expiration := none }) db)

/-- Specification-side account of when `cliente_me` reports a live session,
written from the spec's words for the session check: a present, known,
unexpired cookie on a verified account.  Used to compare the code's `logado`
flag against the spec's intended classification. -/
def me_logado_spec (db : List Cliente) (cliente_token : Option String) (now : Int) : Bool :=
  match cliente_token with
  | none => false
  | some t =>
    if t = "" then false
    else
      match db.find? (fun c => c.token == some t) with
      | none => false
      | some cliente =>
        cliente.email_verificado &&
          match cliente.token_expiration with
          | none => true
          | some exp => decide (now ≤ exp)

/-!
List helpers: locating and updating the row that a `filter(...).first()`
query returns, when the database decomposes as a prefix of non-matching rows,
the matched row, and a suffix.
-/

/-- The first match of `p` in `l1 ++ c :: l2` is `c` when every element of
`l1` fails `p` and `c` satisfies it. -/
theorem find?_middle {p : Cliente → Bool} {c : Cliente} :
    ∀ (l1 l2 : List Cliente), (∀ x ∈ l1, p x = false) → p c = true →
      (l1 ++ c :: l2).find? p = some c := by
  intro l1 l2
  induction l1 with
  | nil =>
    intro _ hc
    simp [List.find?_cons, hc]
  | cons a l ih =>
    intro hmiss hc
    have ha : p a = false := hmiss a (List.mem_cons_self a l)
    simp only [List.cons_append, List.find?_cons, ha]
    exact ih (fun x hx => hmiss x (List.mem_cons_of_mem a hx)) hc

/-- Updating the first match of `p` in `l1 ++ c :: l2` rewrites exactly `c`
when every element of `l1` fails `p` and `c` satisfies it. -/
theorem updateFirst_middle (p : Cliente → Bool) (f : Cliente → Cliente) {c : Cliente} :
    ∀ (l1 l2 : List Cliente), (∀ x ∈ l1, p x = false) → p c = true →
      updateFirst p f (l1 ++ c :: l2) = l1 ++ f c :: l2 := by
  intro l1 l2
  induction l1 with
  | nil =>
    intro _ hc
    simp [updateFirst, hc]
  | cons a l ih =>
    intro hmiss hc
    have ha : p a = false := hmiss a (List.mem_cons_self a l)
    simp only [List.cons_append, updateFirst, ha, Bool.false_eq_true, if_false,
      List.cons.injEq, true_and]
    exact ih (fun x hx => hmiss x (List.mem_cons_of_mem a hx)) hc

/-!
Claims about the session check `GET /cliente/me`.
-/


/-!
Claims about the session check `GET /cliente/me`.
-/

/-- Claim C1: for every `WhoAmI` call presenting a stored, email-verified
session whose expiry lies in the future, the call succeeds; when fewer than
5 days remain, the stored expiry is rewritten to now + 30 days; with 5 or
more days remaining the store is left unchanged.  The cookie `t` is an
issued session token, hence non-empty. -/
theorem cliente_me_rolling_renewal
    (l1 l2 : List Cliente) (c : Cliente) (t : String) (now exp : Int)
    (ht : t ≠ "")
    (hmiss : ∀ x ∈ l1, (x.token == some t) = false)
    (htok : c.token = some t)
    (hver : c.email_verificado = true)
    (hexp : c.token_expiration = some exp)
    (hfut : now < exp) :
    (cliente_me (l1 ++ c :: l2) (some t) now).1 = respMe c ∧
    (exp - now < 5 * 86400 →
      (cliente_me (l1 ++ c :: l2) (some t) now).2 =
        l1 ++ { c with token_expiration := some (now + 30 * 86400) } :: l2) ∧
    (5 * 86400 ≤ exp - now →
      (cliente_me (l1 ++ c :: l2) (some t) now).2 = l1 ++ c :: l2) := by
  have hc : (c.token == some t) = true := by
    rw [htok]
    exact beq_self_eq_true _
  have hfind := find?_middle l1 l2 hmiss hc
  have hnotexp : ¬ now > exp := by omega
  unfold cliente_me
  simp only [hfind, if_neg ht, hver, hexp, Bool.not_true, Bool.false_eq_true, if_false, hnotexp]
  by_cases hren : (exp - now) / 86400 < 5
  · rw [if_pos hren]
    refine ⟨rfl, fun _ => ?_, fun hge => absurd hren (by omega)⟩
    rw [updateFirst_middle _ _ l1 l2 hmiss hc]
    simp [hver]
  · rw [if_neg hren]
    exact ⟨rfl, fun hlt => absurd hren (by omega), fun _ => rfl⟩

/-- Concrete verified client whose session expires 3 days (259200 s) after
time 0; used by the witnesses below. -/
def cRenova : Cliente :=
  { id := 7, nome := "Bia", email := "bia@example.com", celular := "2",
    cnpj := "456", senha_hash := "s", email_verificado := true,
    email_token := none, email_token_expiration := none,
    reset_token_hash := none, reset_token_expiration := none,
    contato_ok := true, politica_ok := true, token := some "tok7",
    token_expiration := some 259200, criado_em := 0 }

/-- Witness for claim C1: at `cRenova` with 3 days remaining, the response
succeeds and the expiry is rewritten to now + 30 days. -/
theorem cliente_me_rolling_renewal_witness :
    (cliente_me [cRenova] (some "tok7") 0).1 = respMe cRenova ∧
    (cliente_me [cRenova] (some "tok7") 0).2 =
      [{ cRenova with token_expiration := some (0 + 30 * 86400) }] := by
  have h := cliente_me_rolling_renewal [] [] cRenova "tok7" 0 259200
    (by decide) (by intro x hx; cases hx) rfl rfl rfl (by decide)
  exact ⟨h.1, h.2.1 (by decide)⟩

/-- Claim C9: a `WhoAmI` call presenting a stored session whose expiry is in
the past is treated as logged out (`logado = false` in the body), and the
whole store — in particular the stored `token` and `token_expiration` of the
account — is left unchanged. -/
theorem cliente_me_expired_frame
    (l1 l2 : List Cliente) (c : Cliente) (t : String) (now exp : Int)
    (ht : t ≠ "")
    (hmiss : ∀ x ∈ l1, (x.token == some t) = false)
    (htok : c.token = some t)
    (hexp : c.token_expiration = some exp)
    (hpast : exp < now) :
    (cliente_me (l1 ++ c :: l2) (some t) now).1.logado = some false ∧
    (cliente_me (l1 ++ c :: l2) (some t) now).2 = l1 ++ c :: l2 := by
  have hc : (c.token == some t) = true := by
    rw [htok]
    exact beq_self_eq_true _
  have hfind := find?_middle l1 l2 hmiss hc
  have hgt : now > exp := by omega
  unfold cliente_me
  simp only [hfind, if_neg ht, hexp]
  cases hver : c.email_verificado with
  | false => exact ⟨rfl, rfl⟩
  | true =>
    simp only [Bool.not_true, Bool.false_eq_true, if_false, if_pos hgt]
    exact ⟨rfl, trivial⟩

/-- Concrete verified client whose session expired at time 100. -/
def cExpirado : Cliente :=
  { cRenova with id := 8, email := "exp@example.com", cnpj := "789",
                 token := some "tok8", token_expiration := some 100 }

/-- Witness for claim C9: at time 200 the expired session is logged out and
the store is untouched. -/
theorem cliente_me_expired_frame_witness :
    (cliente_me [cExpirado] (some "tok8") 200).1.logado = some false ∧
    (cliente_me [cExpirado] (some "tok8") 200).2 = [cExpirado] :=
  cliente_me_expired_frame [] [] cExpirado "tok8" 200 100
    (by decide) (by intro x hx; cases hx) rfl rfl (by decide)

/-- Counterexample to claim C2: the session check with an absent cookie
answers HTTP 200 (body `{"logado": false}`), not 401.  The handler
`cliente_me` returns plain dictionaries on every path, so FastAPI emits
status 200 on every path; there is no 401 or 403 anywhere in it. -/
theorem cliente_me_sem_cookie_status :
    (cliente_me [] none 0).1.status = 200 ∧ (cliente_me [] none 0).1.status ≠ 401 := by
  decide

/-- Claim C2 (amended): every client session-check response carries HTTP
status 200; the body's `logado` flag — rather than the status code — encodes
the classification, being `false` exactly when the cookie is absent, empty,
unknown, or past its expiry, or the account's email is unverified, and `true`
with the profile otherwise. -/
theorem cliente_me_status_logado :
    ∀ (db : List Cliente) (ck : Option String) (now : Int),
      (cliente_me db ck now).1.status = 200 ∧
      (cliente_me db ck now).1.logado = some (me_logado_spec db ck now) := by
  intro db ck now
  unfold cliente_me me_logado_spec
  cases ck with
  | none => exact ⟨rfl, rfl⟩
  | some t =>
    by_cases ht : t = ""
    · simp only [if_pos ht]
      exact ⟨rfl, rfl⟩
    · simp only [if_neg ht]
      cases hfind : db.find? (fun c => c.token == some t) with
      | none => exact ⟨rfl, rfl⟩
      | some c =>
        simp only []
        cases hver : c.email_verificado with
        | false => exact ⟨rfl, rfl⟩
        | true =>
          simp only [hver, Bool.not_true, Bool.false_eq_true, if_false, Bool.true_and]
          cases hexp : c.token_expiration with
          | none => exact ⟨rfl, rfl⟩
          | some e =>
            simp only []
            by_cases hgt : now > e
            · have hne : ¬ now ≤ e := by omega
              simp only [if_pos hgt, decide_eq_false hne]
              exact ⟨rfl, rfl⟩
            · have hle : now ≤ e := by omega
              simp only [if_neg hgt, decide_eq_true hle]
              by_cases hren : (e - now) / 86400 < 5
              · simp only [if_pos hren]
                exact ⟨rfl, rfl⟩
              · simp only [if_neg hren]
                exact ⟨rfl, rfl⟩

/-!
Claims about login, password reset and the anti-enumeration response.
-/

/-- Claim C3: a successful login on an account holding a pending reset
digest leaves both `reset_token_hash` and `reset_token_expiration` null and
mints a new session token (the `uuid4` of the fresh random bytes) with
expiry now + 30 days.  A pending digest is a SHA-256 hex digest, hence the
non-empty hypothesis `hd`. -/
theorem login_limpa_reset
    (cr : Crypto) (l1 l2 : List Cliente) (c : Cliente) (p : String) (now : Int)
    (rb : List Nat) (d : String)
    (hmiss : ∀ x ∈ l1, (x.email == c.email) = false)
    (hpw : verificar_senha cr p c.senha_hash = true)
    (hver : c.email_verificado = true)
    (hdig : c.reset_token_hash = some d)
    (hd : d ≠ "") :
    login_cliente cr (l1 ++ c :: l2) ⟨c.email, p⟩ now rb =
      (respLoginOk (uuid4_str rb),
       l1 ++ { c with token := some (uuid4_str rb),
                      token_expiration := some (now + 30 * 86400),
                      reset_token_hash := none,
                      reset_token_expiration := none } :: l2) := by
  have hc : (c.email == c.email) = true := beq_self_eq_true _
  have hfind := find?_middle l1 l2 hmiss hc
  unfold login_cliente
  simp only [hfind, hpw, hver, Bool.not_true, Bool.false_eq_true, if_false]
  rw [updateFirst_middle _ _ l1 l2 hmiss hc]
  simp only [hdig, if_neg hd]
  rw [hver]

/-- Helper for claims C4 and C5: the exact success behaviour of
`redefinir_senha` on a store that contains a matching, unexpired reset
digest. -/
theorem redefinir_senha_sucesso_aux
    (cr : Crypto) (l1 l2 : List Cliente) (c : Cliente) (tok np : String) (now e : Int)
    (hlen1 : 6 ≤ np.length) (hlen2 : np.length ≤ 64)
    (hmiss : ∀ x ∈ l1, resetPred cr tok now x = false)
    (hdig : c.reset_token_hash = some (hash_token cr tok))
    (hexp : c.reset_token_expiration = some e)
    (hfut : e > now) :
    redefinir_senha cr (l1 ++ c :: l2) ⟨tok, np⟩ now =
      (respSenhaRedefinida,
       l1 ++ { c with senha_hash := hash_senha cr np,
                      token := none, token_expiration := none,
                      reset_token_hash := none,
                      reset_token_expiration := none } :: l2) := by
  have hc : resetPred cr tok now c = true := by
    unfold resetPred
    rw [hdig, hexp]
    simp [hfut]
  have hfind := find?_middle l1 l2 hmiss hc
  have hnl : (decide (np.length < 6) || decide (np.length > 64)) = false := by
    simp only [Bool.or_eq_false_iff, decide_eq_false_iff_not]
    omega
  unfold redefinir_senha
  simp only [hnl, Bool.false_eq_true, if_false, hfind]
  rw [updateFirst_middle _ _ l1 l2 hmiss hc]

/-- Claim C4: a successful `ConfirmReset` replaces the password hash with
the hash of the new password, nulls the session token and its expiry (even
if a session was active — `c.token` is arbitrary here), and nulls the reset
digest and its expiry. -/
theorem redefinir_senha_sucesso
    (cr : Crypto) (l1 l2 : List Cliente) (c : Cliente) (tok np : String) (now e : Int)
    (hlen1 : 6 ≤ np.length) (hlen2 : np.length ≤ 64)
    (hmiss : ∀ x ∈ l1, resetPred cr tok now x = false)
    (hdig : c.reset_token_hash = some (hash_token cr tok))
    (hexp : c.reset_token_expiration = some e)
    (hfut : e > now) :
    redefinir_senha cr (l1 ++ c :: l2) ⟨tok, np⟩ now =
      (respSenhaRedefinida,
       l1 ++ { c with senha_hash := hash_senha cr np,
                      token := none, token_expiration := none,
                      reset_token_hash := none,
                      reset_token_expiration := none } :: l2) :=
  redefinir_senha_sucesso_aux cr l1 l2 c tok np now e hlen1 hlen2 hmiss hdig hexp hfut

/-- Helper: no row of `l` matches the reset lookup when no row carries the
digest (the conjunction in `resetPred` short-circuits to false). -/
theorem find?_resetPred_none (cr : Crypto) (tok : String) (now2 : Int) (l : List Cliente)
    (h : ∀ x ∈ l, (x.reset_token_hash == some (hash_token cr tok)) = false) :
    l.find? (resetPred cr tok now2) = none := by
  rw [List.find?_eq_none]
  intro x hx hpx
  have hbeq := h x hx
  unfold resetPred at hpx
  rw [hbeq] at hpx
  simp at hpx

/-- Claim C5: `ConfirmReset` with a given raw token succeeds at most once.
After the successful call (same setting as claim C4, plus the storage-layer
fact that the digest matches no other row), a second call with the same raw
token and any valid new password fails with the generic invalid-or-expired
response and leaves the store exactly as the first call left it. -/
theorem redefinir_senha_single_use
    (cr : Crypto) (l1 l2 : List Cliente) (c : Cliente) (tok np np2 : String)
    (now now2 e : Int)
    (hlen1 : 6 ≤ np.length) (hlen2 : np.length ≤ 64)
    (hlen3 : 6 ≤ np2.length) (hlen4 : np2.length ≤ 64)
    (hmiss : ∀ x ∈ l1, resetPred cr tok now x = false)
    (hdig : c.reset_token_hash = some (hash_token cr tok))
    (hexp : c.reset_token_expiration = some e)
    (hfut : e > now)
    (huniq : ∀ x ∈ l1 ++ l2, (x.reset_token_hash == some (hash_token cr tok)) = false) :
    redefinir_senha cr (redefinir_senha cr (l1 ++ c :: l2) ⟨tok, np⟩ now).2 ⟨tok, np2⟩ now2 =
      (respLinkInvalido, (redefinir_senha cr (l1 ++ c :: l2) ⟨tok, np⟩ now).2) := by
  have hsnd : (redefinir_senha cr (l1 ++ c :: l2) ⟨tok, np⟩ now).2 =
      l1 ++ { c with senha_hash := hash_senha cr np, token := none,
                     token_expiration := none, reset_token_hash := none,
                     reset_token_expiration := none } :: l2 := by
    rw [redefinir_senha_sucesso_aux cr l1 l2 c tok np now e hlen1 hlen2 hmiss hdig hexp hfut]
  rw [hsnd]
  have hnone := find?_resetPred_none cr tok now2
      (l1 ++ { c with senha_hash := hash_senha cr np, token := none,
                      token_expiration := none, reset_token_hash := none,
                      reset_token_expiration := none } :: l2) ?hall
  case hall =>
    intro x hx
    rcases List.mem_append.mp hx with hxl | hxc
    · exact huniq x (List.mem_append.mpr (Or.inl hxl))
    · rcases List.mem_cons.mp hxc with rfl | hxl2
      · rfl
      · exact huniq x (List.mem_append.mpr (Or.inr hxl2))
  have hnl : (decide (np2.length < 6) || decide (np2.length > 64)) = false := by
    simp only [Bool.or_eq_false_iff, decide_eq_false_iff_not]
    omega
  unfold redefinir_senha
  simp only [hnl, Bool.false_eq_true, if_false, hnone]

/-- Claim C6: `RequestReset` answers exactly the same response — status 200
and the same generic message — for an email that exists in the store and for
one that does not, so the response reveals nothing about account
existence. -/
theorem esqueci_senha_uniforme
    (cr : Crypto) (db : List Cliente) (e1 e2 : String) (now : Int) (rb : List Nat)
    (hex : (db.find? (fun c => c.email == e1)).isSome = true)
    (hnex : db.find? (fun c => c.email == e2) = none) :
    (esqueci_senha cr db e1 now rb).1 = (esqueci_senha cr db e2 now rb).1 := by
  have h2 : (esqueci_senha cr db e2 now rb).1 = respMsgPadrao := by
    unfold esqueci_senha
    rw [hnex]
  have h1 : (esqueci_senha cr db e1 now rb).1 = respMsgPadrao := by
    unfold esqueci_senha
    cases hf : db.find? (fun c => c.email == e1) with
    | none => rfl
    | some c =>
      simp only []
      cases c.reset_token_expiration with
      | none => rfl
      | some e =>
        simp only []
        by_cases h : now < e
        · rw [if_pos h]
        · rw [if_neg h]
  rw [h1, h2]

/-- Concrete crypto instance for witnesses: identity bcrypt, equality
verification, prefixed digest, empty pepper. -/
def testCr : Crypto :=
  { bcryptHash := fun s => s, bcryptVerify := fun s h => s == h,
    sha256hex := fun s => "h:" ++ s, pepper := "" }

/-- Concrete verified client holding an active session and a pending reset
digest for the raw token `rtokA` (its `testCr` digest being `h:rtokA`),
expiring at time 1800. -/
def cPend : Cliente :=
  { id := 3, nome := "Caio", email := "cli@example.com", celular := "3",
    cnpj := "321", senha_hash := "senha123", email_verificado := true,
    email_token := none, email_token_expiration := none,
    reset_token_hash := some "h:rtokA", reset_token_expiration := some 1800,
    contato_ok := true, politica_ok := true, token := some "oldtok",
    token_expiration := some 999, criado_em := 0 }

/-- Sixteen zero bytes, a concrete random seed for `uuid4_str`. -/
def rb16 : List Nat := List.replicate 16 0

set_option maxRecDepth 8000 in
/-- Witness for claim C3: logging in at `cPend` clears the pending reset
digest and mints the fresh session token. -/
theorem login_limpa_reset_witness :
    login_cliente testCr [cPend] ⟨cPend.email, "senha123"⟩ 0 rb16 =
      (respLoginOk (uuid4_str rb16),
       [{ cPend with token := some (uuid4_str rb16),
                     token_expiration := some (0 + 30 * 86400),
                     reset_token_hash := none,
                     reset_token_expiration := none }]) :=
  login_limpa_reset testCr [] [] cPend "senha123" 0 rb16 "h:rtokA"
    (by intro x hx; cases hx) (by decide) rfl rfl (by decide)

set_option maxRecDepth 8000 in
/-- Witness for claim C4: confirming the reset with raw token `rtokA`
replaces the password hash and nulls session and reset state. -/
theorem redefinir_senha_sucesso_witness :
    redefinir_senha testCr [cPend] ⟨"rtokA", "novaSenha1"⟩ 0 =
      (respSenhaRedefinida,
       [{ cPend with senha_hash := hash_senha testCr "novaSenha1",
                     token := none, token_expiration := none,
                     reset_token_hash := none,
                     reset_token_expiration := none }]) :=
  redefinir_senha_sucesso testCr [] [] cPend "rtokA" "novaSenha1" 0 1800
    (by decide) (by decide) (by intro x hx; cases hx) (by decide) rfl (by decide)

set_option maxRecDepth 8000 in
/-- Witness for claim C5: a second `ConfirmReset` with the same raw token
fails generically and leaves the store as the first call left it. -/
theorem redefinir_senha_single_use_witness :
    redefinir_senha testCr (redefinir_senha testCr [cPend] ⟨"rtokA", "novaSenha1"⟩ 0).2
        ⟨"rtokA", "novaSenha2"⟩ 50 =
      (respLinkInvalido, (redefinir_senha testCr [cPend] ⟨"rtokA", "novaSenha1"⟩ 0).2) :=
  redefinir_senha_single_use testCr [] [] cPend "rtokA" "novaSenha1" "novaSenha2" 0 50 1800
    (by decide) (by decide) (by decide) (by decide)
    (by intro x hx; cases hx) (by decide) rfl (by decide)
    (by intro x hx; simp at hx)

/-- Witness for claim C6: the acknowledgment for the stored email
`cli@example.com` equals the acknowledgment for the unknown email
`nao@example.com`. -/
theorem esqueci_senha_uniforme_witness :
    (esqueci_senha testCr [cPend] "cli@example.com" 0 (List.replicate 32 0)).1 =
      (esqueci_senha testCr [cPend] "nao@example.com" 0 (List.replicate 32 0)).1 :=
  esqueci_senha_uniforme testCr [cPend] "cli@example.com" "nao@example.com" 0
    (List.replicate 32 0) (by decide) (by decide)

/-!
Claims about the email-verification gate at login and session uniqueness.
-/

/-- Concrete unverified client used by the claim C8 counterexample and
witnesses: correct password `senha123`, verification token `vtok`. -/
def cUnv : Cliente :=
  { id := 1, nome := "Ana", email := "ana@example.com", celular := "1",
    cnpj := "123", senha_hash := "senha123", email_verificado := false,
    email_token := some "vtok", email_token_expiration := some 1000,
    reset_token_hash := none, reset_token_expiration := none,
    contato_ok := true, politica_ok := true, token := none,
    token_expiration := none, criado_em := 0 }

set_option maxRecDepth 8000 in
/-- Counterexample to claim C8: on an unverified account with an incorrect
password, login answers 401 (the credentials check runs first), not the
claimed 403 — so the 403 is not returned regardless of password
correctness. -/
theorem login_nao_verificado_senha_errada_401 :
    (login_cliente testCr [cUnv] ⟨"ana@example.com", "errada"⟩ 0 rb16).1.status = 401 ∧
    (login_cliente testCr [cUnv] ⟨"ana@example.com", "errada"⟩ 0 rb16).1.status ≠ 403 := by
  decide

/-- Claim C8 (amended): on an unverified account, login with the correct
password is refused with the distinct 403 response; with an incorrect
password it is refused with the generic 401 response instead; and after a
successful `VerifyEmail` with the correct token, the same credentials log in
successfully. -/
theorem login_verificacao_gate :
    (∀ (cr : Crypto) (l1 l2 : List Cliente) (c : Cliente) (p : String) (now : Int) (rb : List Nat),
      (∀ x ∈ l1, (x.email == c.email) = false) →
      verificar_senha cr p c.senha_hash = true →
      c.email_verificado = false →
      login_cliente cr (l1 ++ c :: l2) ⟨c.email, p⟩ now rb =
        (respNaoVerificado, l1 ++ c :: l2)) ∧
    (∀ (cr : Crypto) (l1 l2 : List Cliente) (c : Cliente) (p : String) (now : Int) (rb : List Nat),
      (∀ x ∈ l1, (x.email == c.email) = false) →
      verificar_senha cr p c.senha_hash = false →
      login_cliente cr (l1 ++ c :: l2) ⟨c.email, p⟩ now rb =
        (respLoginInvalido, l1 ++ c :: l2)) ∧
    (∀ (cr : Crypto) (l1 l2 : List Cliente) (c : Cliente) (vt p : String)
        (now1 now2 ev : Int) (rb : List Nat),
      (∀ x ∈ l1, (x.email_token == some vt) = false) →
      (∀ x ∈ l1, (x.email == c.email) = false) →
      c.email_token = some vt →
      c.email_verificado = false →
      c.email_token_expiration = some ev →
      now1 ≤ ev →
      verificar_senha cr p c.senha_hash = true →
      (verificar_email (l1 ++ c :: l2) vt now1).1 = respVerificado ∧
      (login_cliente cr (verificar_email (l1 ++ c :: l2) vt now1).2 ⟨c.email, p⟩ now2 rb).1 =
        respLoginOk (uuid4_str rb)) := by
  refine ⟨?_, ?_, ?_⟩
  · intro cr l1 l2 c p now rb hmiss hpw hver
    have hc : (c.email == c.email) = true := beq_self_eq_true _
    have hfind := find?_middle l1 l2 hmiss hc
    unfold login_cliente
    simp only [hfind, hpw, hver, Bool.not_true, Bool.not_false, Bool.false_eq_true, if_false,
      if_true]
  · intro cr l1 l2 c p now rb hmiss hpw
    have hc : (c.email == c.email) = true := beq_self_eq_true _
    have hfind := find?_middle l1 l2 hmiss hc
    unfold login_cliente
    simp only [hfind, hpw, Bool.not_false, if_true]
  · intro cr l1 l2 c vt p now1 now2 ev rb hmiss1 hmiss2 htok hver hexp hnow hpw
    have hc : (c.email_token == some vt) = true := by
      rw [htok]
      exact beq_self_eq_true _
    have hfind := find?_middle l1 l2 hmiss1 hc
    have hnotexp : ¬ now1 > ev := by omega
    have hver1 : verificar_email (l1 ++ c :: l2) vt now1 =
        (respVerificado,
         l1 ++ { c with email_verificado := true, email_token := none,
                        email_token_expiration := none } :: l2) := by
      unfold verificar_email
      simp only [hfind, hver, Bool.false_eq_true, if_false, hexp, hnotexp]
      rw [updateFirst_middle _ _ l1 l2 hmiss1 hc]
    rw [hver1]
    refine ⟨rfl, ?_⟩
    have hc2 : (Cliente.email { c with email_verificado := true, email_token := none,
                                       email_token_expiration := none } == c.email) = true :=
      beq_self_eq_true _
    have hfind2 := find?_middle l1 l2 hmiss2 hc2
    unfold login_cliente
    simp only [hfind2, verificar_senha, hpw, Bool.not_true, Bool.false_eq_true, if_false]
    simp only [verificar_senha] at hpw
    simp only [hpw, Bool.not_true, Bool.false_eq_true, if_false]

set_option maxRecDepth 8000 in
/-- Witness for claim C8 (amended), at `cUnv`: correct password → 403;
wrong password → 401; verify then login → success. -/
theorem login_verificacao_gate_witness :
    login_cliente testCr [cUnv] ⟨cUnv.email, "senha123"⟩ 0 rb16 = (respNaoVerificado, [cUnv]) ∧
    login_cliente testCr [cUnv] ⟨cUnv.email, "errada"⟩ 0 rb16 = (respLoginInvalido, [cUnv]) ∧
    ((verificar_email [cUnv] "vtok" 0).1 = respVerificado ∧
     (login_cliente testCr (verificar_email [cUnv] "vtok" 0).2 ⟨cUnv.email, "senha123"⟩ 5 rb16).1 =
       respLoginOk (uuid4_str rb16)) := by
  refine ⟨?_, ?_, ?_⟩
  · exact login_verificacao_gate.1 testCr [] [] cUnv "senha123" 0 rb16
      (by intro x hx; cases hx) (by decide) rfl
  · exact login_verificacao_gate.2.1 testCr [] [] cUnv "errada" 0 rb16
      (by intro x hx; cases hx) (by decide)
  · exact login_verificacao_gate.2.2 testCr [] [] cUnv "vtok" "senha123" 0 5 1000 rb16
      (by intro x hx; cases hx) (by intro x hx; cases hx) rfl rfl rfl (by decide) (by decide)

/-- Helper: when no stored row carries the presented session token, the
session check reports logged out and leaves the store unchanged. -/
theorem cliente_me_token_ausente (db : List Cliente) (t0 : String) (now2 : Int)
    (hnone : ∀ x ∈ db, (x.token == some t0) = false) :
    (cliente_me db (some t0) now2).1.logado = some false ∧
    (cliente_me db (some t0) now2).2 = db := by
  by_cases ht : t0 = ""
  · subst ht
    exact ⟨rfl, rfl⟩
  · have hfindn : db.find? (fun x => x.token == some t0) = none := by
      rw [List.find?_eq_none]
      intro x hx hpx
      rw [hnone x hx] at hpx
      cases hpx
    unfold cliente_me
    simp only [if_neg ht, hfindn]
    exact ⟨rfl, trivial⟩

/-- Claim C10: a successful login overwrites the account's single session
token with the freshly minted one, so the previously issued token `t0` —
held by no other row, as the unique column guarantees — no longer
authenticates the session check afterwards. -/
theorem login_unico_token
    (cr : Crypto) (l1 l2 : List Cliente) (c : Cliente) (p t0 : String)
    (now1 now2 : Int) (rb : List Nat)
    (hmiss : ∀ x ∈ l1, (x.email == c.email) = false)
    (hpw : verificar_senha cr p c.senha_hash = true)
    (hver : c.email_verificado = true)
    (hold : c.token = some t0)
    (hfresh : uuid4_str rb ≠ t0)
    (hout : ∀ x ∈ l1 ++ l2, (x.token == some t0) = false) :
    (∃ c', (login_cliente cr (l1 ++ c :: l2) ⟨c.email, p⟩ now1 rb).2 = l1 ++ c' :: l2 ∧
           c'.token = some (uuid4_str rb)) ∧
    (cliente_me (login_cliente cr (l1 ++ c :: l2) ⟨c.email, p⟩ now1 rb).2 (some t0) now2).1.logado
      = some false := by
  have hc : (c.email == c.email) = true := beq_self_eq_true _
  have hfind := find?_middle l1 l2 hmiss hc
  have key : ∃ c', (login_cliente cr (l1 ++ c :: l2) ⟨c.email, p⟩ now1 rb).2 = l1 ++ c' :: l2 ∧
      c'.token = some (uuid4_str rb) := by
    cases hrt : c.reset_token_hash with
    | none =>
      refine ⟨{ c with token := some (uuid4_str rb),
                       token_expiration := some (now1 + 30 * 86400) }, ?_, rfl⟩
      unfold login_cliente
      simp only [hfind, hpw, hver, Bool.not_true, Bool.false_eq_true, if_false]
      rw [updateFirst_middle _ _ l1 l2 hmiss hc]
      simp only [hrt]
      rw [hver]
    | some s =>
      by_cases hs : s = ""
      · refine ⟨{ c with token := some (uuid4_str rb),
                         token_expiration := some (now1 + 30 * 86400) }, ?_, rfl⟩
        unfold login_cliente
        simp only [hfind, hpw, hver, Bool.not_true, Bool.false_eq_true, if_false]
        rw [updateFirst_middle _ _ l1 l2 hmiss hc]
        simp only [hrt, if_pos hs]
        rw [hver]
      · refine ⟨{ c with token := some (uuid4_str rb),
                         token_expiration := some (now1 + 30 * 86400),
                         reset_token_hash := none,
                         reset_token_expiration := none }, ?_, rfl⟩
        unfold login_cliente
        simp only [hfind, hpw, hver, Bool.not_true, Bool.false_eq_true, if_false]
        rw [updateFirst_middle _ _ l1 l2 hmiss hc]
        simp only [hrt, if_neg hs]
        rw [hver]
  obtain ⟨c', hdb, htk⟩ := key
  refine ⟨⟨c', hdb, htk⟩, ?_⟩
  rw [hdb]
  refine (cliente_me_token_ausente _ t0 now2 ?_).1
  intro x hx
  rcases List.mem_append.mp hx with hxl | hxc
  · exact hout x (List.mem_append.mpr (Or.inl hxl))
  · rcases List.mem_cons.mp hxc with rfl | hxl2
    · rw [htk]
      simp only [beq_eq_false_iff_ne, ne_eq, Option.some.injEq]
      exact hfresh
    · exact hout x (List.mem_append.mpr (Or.inr hxl2))

set_option maxRecDepth 8000 in
/-- Witness for claim C10: after `cPend` (old session token `oldtok`) logs
in again, presenting `oldtok` to the session check reports logged out. -/
theorem login_unico_token_witness :
    (∃ c', (login_cliente testCr [cPend] ⟨cPend.email, "senha123"⟩ 0 rb16).2 = [] ++ c' :: [] ∧
           c'.token = some (uuid4_str rb16)) ∧
    (cliente_me (login_cliente testCr [cPend] ⟨cPend.email, "senha123"⟩ 0 rb16).2
        (some "oldtok") 9).1.logado = some false :=
  login_unico_token testCr [] [] cPend "senha123" "oldtok" 0 9 rb16
    (by intro x hx; cases hx) (by decide) rfl rfl (by decide)
    (by intro x hx; simp at hx)

/-!
Token-minting analysis for claim C7: how many distinct tokens each
generator can emit and whether its output is URL-safe.  A generator carries
at least 32 bytes (256 bits) of entropy only if it can emit at least
`2 ^ 256` distinct tokens; `token_urlsafe32` does (it is injective on its 32
random input bytes), while the `uuid4` generator used for session and
email-verification tokens is a function of 16 random bytes and so can emit
at most `2 ^ 128`.
-/

/-- Positional base-`B` digits determine a number below `B ^ k`. -/
theorem digits_determine (B : Nat) (hB : 1 < B) :
    ∀ (k m n : Nat), m < B ^ k → n < B ^ k →
      (∀ i, i < k → m / B ^ i % B = n / B ^ i % B) → m = n := by
  intro k
  induction k with
  | zero =>
    intro m n hm hn _
    simp only [pow_zero] at hm hn
    omega
  | succ k ih =>
    intro m n hm hn h
    have hB0 : 0 < B := by omega
    have h0 : m % B = n % B := by
      have h00 := h 0 (Nat.succ_pos k)
      simpa using h00
    have hd : m / B = n / B := by
      apply ih
      · exact Nat.div_lt_of_lt_mul (by rw [← pow_succ']; exact hm)
      · exact Nat.div_lt_of_lt_mul (by rw [← pow_succ']; exact hn)
      · intro i hi
        have hh := h (i + 1) (by omega)
        rw [Nat.div_div_eq_div_mul, Nat.div_div_eq_div_mul, ← pow_succ'] at *
        exact hh
    calc m = B * (m / B) + m % B := (Nat.div_add_mod m B).symm
    _ = B * (n / B) + n % B := by rw [hd, h0]
    _ = n := Nat.div_add_mod n B

/-- A byte list's big-endian value is below `256 ^ length`. -/
theorem beNum_lt (l : List Nat) (h : ∀ x ∈ l, x < 256) : beNum l < 256 ^ l.length := by
  induction l with
  | nil => simp [beNum]
  | cons d ds ih =>
    have hd : d < 256 := h d (List.mem_cons_self d ds)
    have hds : beNum ds < 256 ^ ds.length := ih fun x hx => h x (List.mem_cons_of_mem d hx)
    simp only [beNum, List.length_cons, pow_succ]
    calc d * 256 ^ ds.length + beNum ds
        < d * 256 ^ ds.length + 256 ^ ds.length := by omega
      _ = (d + 1) * 256 ^ ds.length := by ring
      _ ≤ 256 * 256 ^ ds.length := Nat.mul_le_mul_right _ (by omega)
      _ = 256 ^ ds.length * 256 := by ring

/-- Quotient-remainder uniqueness for `d * P + r` with `r < P`. -/
theorem headDigit_eq {d d' r r' P : Nat} (hr : r < P) (hr' : r' < P)
    (he : d * P + r = d' * P + r') : d = d' ∧ r = r' := by
  rcases Nat.lt_trichotomy d d' with hlt | heq | hgt
  · exfalso
    have : d * P + r < d' * P + r' :=
      calc d * P + r < d * P + P := by omega
        _ = (d + 1) * P := by ring
        _ ≤ d' * P := Nat.mul_le_mul_right _ (by omega)
        _ ≤ d' * P + r' := Nat.le_add_right _ _
    omega
  · subst heq
    omega
  · exfalso
    have : d' * P + r' < d * P + r :=
      calc d' * P + r' < d' * P + P := by omega
        _ = (d' + 1) * P := by ring
        _ ≤ d * P := Nat.mul_le_mul_right _ (by omega)
        _ ≤ d * P + r := Nat.le_add_right _ _
    omega

/-- Equal-length byte lists with the same big-endian value are equal. -/
theorem beNum_inj : ∀ (l1 l2 : List Nat), l1.length = l2.length →
    (∀ x ∈ l1, x < 256) → (∀ x ∈ l2, x < 256) → beNum l1 = beNum l2 → l1 = l2 := by
  intro l1
  induction l1 with
  | nil =>
    intro l2 hlen _ _ _
    cases l2 with
    | nil => rfl
    | cons d ds => simp at hlen
  | cons d ds ih =>
    intro l2 hlen h1 h2 he
    cases l2 with
    | nil => simp at hlen
    | cons d' ds' =>
      simp only [List.length_cons] at hlen
      have hlen' : ds.length = ds'.length := by omega
      have hr : beNum ds < 256 ^ ds.length :=
        beNum_lt ds fun x hx => h1 x (List.mem_cons_of_mem _ hx)
      have hr' : beNum ds' < 256 ^ ds.length := by
        rw [hlen']
        exact beNum_lt ds' fun x hx => h2 x (List.mem_cons_of_mem _ hx)
      simp only [beNum] at he
      rw [← hlen'] at he
      obtain ⟨hdd, hrr⟩ := headDigit_eq hr hr' he
      rw [hdd, ih ds' hlen' (fun x hx => h1 x (List.mem_cons_of_mem _ hx))
        (fun x hx => h2 x (List.mem_cons_of_mem _ hx)) hrr]

/-- The base64url character table is injective on 6-bit indices. -/
theorem b64urlChar_inj : ∀ x, x < 64 → ∀ y, y < 64 → b64urlChar x = b64urlChar y → x = y := by
  decide

/-- Injectivity of `secrets.token_urlsafe(32)` on its 32 random bytes: the
reset-token generator can emit `2 ^ 256` distinct tokens, i.e. it carries the
full 32 bytes of entropy of its input. -/
theorem token_urlsafe32_inj :
    ∀ (b b' : List Nat), b.length = 32 → b'.length = 32 →
      (∀ x ∈ b, x < 256) → (∀ x ∈ b', x < 256) →
      token_urlsafe32 b = token_urlsafe32 b' → b = b' := by
  intro b b' hb hb' h1 h2 he
  have hlist : ((List.range 43).map fun i => b64urlChar (beNum b * 4 / 64 ^ (42 - i) % 64)) =
      ((List.range 43).map fun i => b64urlChar (beNum b' * 4 / 64 ^ (42 - i) % 64)) := by
    have hd := congrArg String.data he
    simpa [token_urlsafe32] using hd
  have hchar : ∀ i, i < 43 →
      b64urlChar (beNum b * 4 / 64 ^ (42 - i) % 64) =
      b64urlChar (beNum b' * 4 / 64 ^ (42 - i) % 64) := by
    intro i hi
    have hq := congrArg (fun l => l.getD i 'x') hlist
    have hgl : ((List.range 43).map fun j => b64urlChar (beNum b * 4 / 64 ^ (42 - j) % 64)).getD i 'x'
        = b64urlChar (beNum b * 4 / 64 ^ (42 - i) % 64) := by
      rw [List.getD_eq_getElem?_getD, List.getElem?_map, List.getElem?_range hi]
      rfl
    have hgr : ((List.range 43).map fun j => b64urlChar (beNum b' * 4 / 64 ^ (42 - j) % 64)).getD i 'x'
        = b64urlChar (beNum b' * 4 / 64 ^ (42 - i) % 64) := by
      rw [List.getD_eq_getElem?_getD, List.getElem?_map, List.getElem?_range hi]
      rfl
    simp only [] at hq
    rw [hgl, hgr] at hq
    exact hq
  have hdig : ∀ j, j < 43 → beNum b * 4 / 64 ^ j % 64 = beNum b' * 4 / 64 ^ j % 64 := by
    intro j hj
    have hcc := hchar (42 - j) (by omega)
    have h42 : 42 - (42 - j) = j := by omega
    rw [h42] at hcc
    exact b64urlChar_inj _ (Nat.mod_lt _ (by norm_num)) _ (Nat.mod_lt _ (by norm_num)) hcc
  have hpow : (256 : Nat) ^ 32 * 4 = 64 ^ 43 := by norm_num
  have hlt : beNum b * 4 < 64 ^ 43 := by
    have hbl := beNum_lt b h1
    rw [hb] at hbl
    omega
  have hlt' : beNum b' * 4 < 64 ^ 43 := by
    have hbl := beNum_lt b' h2
    rw [hb'] at hbl
    omega
  have h4 : beNum b * 4 = beNum b' * 4 :=
    digits_determine 64 (by norm_num) 43 _ _ hlt hlt' hdig
  have hbe : beNum b = beNum b' := by omega
  exact beNum_inj b b' (hb.trans hb'.symm) h1 h2 hbe

/-- Every character of the base64url alphabet is URL-safe. -/
theorem b64_all_urlSafe : ∀ c ∈ b64urlChars, urlSafeChar c = true := by
  decide

/-- Every lowercase hex character is URL-safe. -/
theorem hex_all_urlSafe : ∀ c ∈ hexChars, urlSafeChar c = true := by
  decide

/-- An in-bounds `getD` is a member of its list. -/
theorem getD_mem_of_lt : ∀ (l : List Char) (n : Nat), n < l.length → l.getD n '?' ∈ l := by
  intro l
  induction l with
  | nil =>
    intro n hn
    simp at hn
  | cons a l ih =>
    intro n hn
    cases n with
    | zero => simp [List.getD]
    | succ m =>
      have hm : m < l.length := by simpa using hn
      have : (a :: l).getD (m + 1) '?' = l.getD m '?' := by
        simp [List.getD]
      rw [this]
      exact List.mem_cons_of_mem _ (ih m hm)

/-- Every character of a `token_urlsafe32` token is URL-safe. -/
theorem token_urlsafe32_urlSafe :
    ∀ (b : List Nat), ∀ c ∈ (token_urlsafe32 b).data, urlSafeChar c = true := by
  intro b c hc
  have hc' : c ∈ (List.range 43).map fun i => b64urlChar (beNum b * 4 / 64 ^ (42 - i) % 64) := by
    simpa [token_urlsafe32] using hc
  rw [List.mem_map] at hc'
  obtain ⟨i, _, rfl⟩ := hc'
  have h64 : b64urlChars.length = 64 := rfl
  have hlt : beNum b * 4 / 64 ^ (42 - i) % 64 < b64urlChars.length := by
    rw [h64]
    exact Nat.mod_lt _ (by norm_num)
  exact b64_all_urlSafe _ (getD_mem_of_lt _ _ hlt)

/-- Both hex characters of a byte are URL-safe. -/
theorem byteToHex_urlSafe : ∀ (b : Nat), ∀ c ∈ byteToHex b, urlSafeChar c = true := by
  intro b c hc
  have h16 : hexChars.length = 16 := by decide
  simp only [byteToHex, List.mem_cons, List.not_mem_nil, or_false] at hc
  rcases hc with rfl | rfl
  · exact hex_all_urlSafe _ (getD_mem_of_lt _ _ (by rw [h16]; exact Nat.mod_lt _ (by norm_num)))
  · exact hex_all_urlSafe _ (getD_mem_of_lt _ _ (by rw [h16]; exact Nat.mod_lt _ (by norm_num)))

/-- Every character of a `uuid4` string — hex digits and hyphens — is
URL-safe. -/
theorem uuid4_str_urlSafe :
    ∀ (b : List Nat), ∀ c ∈ (uuid4_str b).data, urlSafeChar c = true := by
  intro b c hc
  have hhx : ∀ x ∈ ((uuid4_setVariant b).map byteToHex).flatten, urlSafeChar x = true := by
    intro x hx
    rw [List.mem_flatten] at hx
    obtain ⟨l, hl, hxl⟩ := hx
    rw [List.mem_map] at hl
    obtain ⟨byte, _, rfl⟩ := hl
    exact byteToHex_urlSafe byte x hxl
  have hdash : urlSafeChar '-' = true := by decide
  simp only [uuid4_str, List.mem_append, List.mem_cons] at hc
  rcases hc with (((h | h | h) | h | h) | h | h) | h | h <;>
    first
      | (rw [h]; exact hdash)
      | exact hhx c (List.mem_of_mem_take h)
      | exact hhx c (List.mem_of_mem_drop (List.mem_of_mem_take h))
      | exact hhx c (List.mem_of_mem_drop h)

/-- The `uuid4` generator, a function of only 16 random bytes, can emit at
most `256 ^ 16 = 2 ^ 128` distinct tokens. -/
theorem uuid4_image_card_lt : (Finset.image uuid4_of Finset.univ).card < 2 ^ (8 * 32) := by
  calc (Finset.image uuid4_of Finset.univ).card
      ≤ (Finset.univ : Finset (Fin 16 → Fin 256)).card := Finset.card_image_le
    _ = Fintype.card (Fin 16 → Fin 256) := Finset.card_univ
    _ = 256 ^ 16 := by rw [Fintype.card_fun, Fintype.card_fin, Fintype.card_fin]
    _ < 2 ^ (8 * 32) := by norm_num

/-- Counterexample to claim C7: the session and email-verification tokens
are `str(uuid.uuid4())`, a function of 16 random bytes, so the set of
tokens the system can possibly mint at those two sites has fewer than
`2 ^ (8 * 32)` elements — such tokens cannot carry 32 bytes of entropy. -/
theorem uuid4_entropia_insuficiente :
    (Finset.image uuid4_of Finset.univ).card < 2 ^ (8 * 32) :=
  uuid4_image_card_lt

/-- Claim C7 (amended): every token the system mints is URL-safe, but only
the raw reset tokens (`secrets.token_urlsafe(32)`) carry at least 32 bytes
of cryptographically random entropy — the generator is injective on its 32
random bytes.  The session and email-verification tokens minted by
`login_cliente` and `cadastro_cliente` are `uuid4` strings drawn from a
set of fewer than `2 ^ 256` values (at most `2 ^ 128`). -/
theorem tokens_mintados :
    (∀ (b b' : List Nat), b.length = 32 → b'.length = 32 →
      (∀ x ∈ b, x < 256) → (∀ x ∈ b', x < 256) →
      gerar_reset_token b = gerar_reset_token b' → b = b') ∧
    (∀ (b : List Nat), ∀ c ∈ (gerar_reset_token b).data, urlSafeChar c = true) ∧
    (∀ (b : List Nat), ∀ c ∈ (uuid4_str b).data, urlSafeChar c = true) ∧
    (Finset.image uuid4_of Finset.univ).card < 2 ^ (8 * 32) := by
  refine ⟨?_, ?_, uuid4_str_urlSafe, uuid4_image_card_lt⟩
  · intro b b' hb hb' h1 h2 he
    exact token_urlsafe32_inj b b' hb hb' h1 h2 he
  · intro b c hc
    exact token_urlsafe32_urlSafe b c hc

set_option maxRecDepth 8000 in
/-- Witness for claim C7 (amended): the injectivity part applied at the
all-zero 32-byte seed, and the URL-safety parts applied at the first
character of the corresponding concrete tokens. -/
theorem tokens_mintados_witness :
    List.replicate 32 (0 : Nat) = List.replicate 32 0 ∧
    urlSafeChar 'A' = true ∧ urlSafeChar '0' = true := by
  refine ⟨?_, ?_, ?_⟩
  · exact tokens_mintados.1 (List.replicate 32 0) (List.replicate 32 0) rfl rfl
      (fun x hx => by rw [List.eq_of_mem_replicate hx]; norm_num)
      (fun x hx => by rw [List.eq_of_mem_replicate hx]; norm_num) rfl
  · exact tokens_mintados.2.1 (List.replicate 32 0) 'A' (by decide)
  · exact tokens_mintados.2.2.1 rb16 '0' (by decide)
